import Mathlib

/-!
Verification development for the S8-n8nchat-minimal-UI backend.

The definitions below are a shallow embedding of the authentication,
session and proxy orchestration of the repository:
  - `validateReturnTo`, `handleCallback`, `checkGroupMembership`,
    `callbackRoute` embed `src/lib/session.js` (the auth module);
  - `authenticateProxy`, `buildUpstreamRequest`, `proxyWebhook` embed
    the proxy endpoint of `src/server.js`.
JavaScript strings are embedded as `List Char` where inductive string
reasoning is needed, and as `String` elsewhere.  Platform functions used
by the code (WHATWG `URL`, `Buffer`/base64, `JSON.stringify`, HMAC JWTs)
are modelled explicitly; the `URL` model covers http/https URLs without
internal whitespace or percent-encoding concerns, which are the URLs
relevant to the same-origin check against an http(s) base URL.
-/

/-! ## JavaScript string helpers (`List Char` view) -/

/-- ASCII whitespace recognised by the model of JavaScript `String.trim`. -/
def isJsSpace (c : Char) : Bool :=
  c == ' ' || c == '\t' || c == '\n' || c == '\r' || c == '\x0b' || c == '\x0c'

/-- Drop trailing whitespace (right half of `trim`). -/
def trimRight : List Char → List Char
  | [] => []
  | c :: rest =>
    match trimRight rest with
    | [] => if isJsSpace c then [] else [c]
    | r => c :: r

/-- Model of JavaScript `String.prototype.trim` (ASCII whitespace). -/
def jsTrim (s : List Char) : List Char :=
  trimRight (s.dropWhile isJsSpace)

/-- Is the first character a slash? -/
def headIsSlash : List Char → Bool
  | [] => false
  | c :: _ => c == '/'

/-- Is the first character a dot? -/
def headIsDot : List Char → Bool
  | [] => false
  | c :: _ => c == '.'

/-- Model of `trimmed.startsWith('/')`. -/
def startsWithSlash (s : List Char) : Bool := headIsSlash s

/-- Model of `trimmed.startsWith('//')`. -/
def startsWithSlashSlash : List Char → Bool
  | [] => false
  | c :: rest => c == '/' && headIsSlash rest

/-- Model of `trimmed.replace(/\/+/g, '/')`: collapse every run of
slashes to a single slash. -/
def collapseSlashes : List Char → List Char
  | [] => []
  | c :: rest =>
    if c == '/' && headIsSlash (collapseSlashes rest) then collapseSlashes rest
    else c :: collapseSlashes rest

/-- Model of `s.includes('..')`. -/
def containsDotDot : List Char → Bool
  | [] => false
  | c :: rest => (c == '.' && headIsDot rest) || containsDotDot rest

/-! ## WHATWG URL model (http/https)

`parseUrl` models `new URL(s)` for absolute http/https URLs: it
lower-cases the scheme and host, splits off the fragment (after `#`)
and query (after `?`), and normalises `.` and `..` path segments the
way the WHATWG path parser does.  Backslashes terminate the host and
act as path separators, as in special-scheme URLs.  Any string without
an `http://`/`https://` prefix (in particular every string starting
with `/`) fails to parse, matching `new URL` throwing on relative
input. -/

/-- Lower-case an ASCII letter, identity elsewhere. -/
def asciiLower (c : Char) : Char :=
  if 'A' ≤ c && c ≤ 'Z' then Char.ofNat (c.toNat + 32) else c

structure ParsedUrl where
  scheme : List Char
  host : List Char
  pathname : List Char
  search : List Char
  hash : List Char
deriving DecidableEq

/-- `url.origin` for a special-scheme URL: scheme, `://`, host. -/
def ParsedUrl.origin (u : ParsedUrl) : List Char :=
  u.scheme ++ ':' :: '/' :: '/' :: u.host

/-- Recognise the `http://` / `https://` prefix (case-insensitively) and
return the lower-cased scheme with the remainder of the input. -/
def parseScheme (s : List Char) : Option (List Char × List Char) :=
  if (s.take 7).map asciiLower = "http://".toList then
    some ("http".toList, s.drop 7)
  else if (s.take 8).map asciiLower = "https://".toList then
    some ("https".toList, s.drop 8)
  else none

/-- Split a character list on `/`. -/
def splitSlash : List Char → List (List Char)
  | [] => [[]]
  | c :: rest =>
    if c == '/' then [] :: splitSlash rest
    else
      match splitSlash rest with
      | [] => [[c]]
      | seg :: segs => (c :: seg) :: segs

/-- Rejoin path segments with `/`. -/
def joinSlash : List (List Char) → List Char
  | [] => []
  | [s] => s
  | s :: rest => s ++ '/' :: joinSlash rest

/-- WHATWG path-segment normalisation: `..` pops the previous segment,
`.` is dropped, and a trailing `.`/`..` leaves a trailing slash. -/
def processSegs (out : List (List Char)) : List (List Char) → List (List Char)
  | [] => out.reverse
  | seg :: rest =>
    if seg = ['.', '.'] then
      match rest with
      | [] => (([] : List Char) :: out.tail).reverse
      | _ :: _ => processSegs out.tail rest
    else if seg = ['.'] then
      match rest with
      | [] => (([] : List Char) :: out).reverse
      | _ :: _ => processSegs out rest
    else processSegs (seg :: out) rest

/-- Normalise the raw path part of a URL: backslashes act as slashes,
an empty path serialises as `/`, and dot segments are resolved. -/
def normalizePath (pathRaw : List Char) : List Char :=
  let p := pathRaw.map (fun c => if c == '\\' then '/' else c)
  match p with
  | [] => ['/']
  | _ :: rest => '/' :: joinSlash (processSegs [] (splitSlash rest))

/-- Model of `new URL(s)` restricted to absolute http/https URLs. -/
def parseUrl (s : List Char) : Option ParsedUrl :=
  match parseScheme s with
  | none => none
  | some (scheme, rest) =>
    let host := rest.takeWhile (fun c => c != '/' && c != '?' && c != '#' && c != '\\')
    if host = [] then none
    else
      let afterHost := rest.drop host.length
      let beforeHash := afterHost.takeWhile (fun c => c != '#')
      let hashPart := afterHost.dropWhile (fun c => c != '#')
      let pathRaw := beforeHash.takeWhile (fun c => c != '?')
      let searchPart := beforeHash.dropWhile (fun c => c != '?')
      some { scheme := scheme
             host := host.map asciiLower
             pathname := normalizePath pathRaw
             search := searchPart
             hash := hashPart }

/-! ## `validateReturnTo` (src/lib/session.js, auth module, lines 215-244) -/

/-- Embedding of `validateReturnTo(returnTo, baseUrl)`: empty input
(falsy) yields `/`; a trimmed relative path starting with a single `/`
is slash-collapsed and accepted unless it contains `..` or a
backslash; otherwise the input is accepted as `pathname + search +
hash` exactly when it parses as an absolute URL with the base URL's
origin; everything else yields `/`. -/
def validateReturnTo (returnTo baseUrl : List Char) : List Char :=
  if returnTo = [] then ['/']
  else
    let trimmed := jsTrim returnTo
    let normalized := collapseSlashes trimmed
    if startsWithSlash trimmed && !startsWithSlashSlash trimmed &&
        !containsDotDot normalized && !normalized.contains '\\' then
      normalized
    else
      match parseUrl trimmed, parseUrl baseUrl with
      | some u, some b =>
        if u.origin = b.origin then u.pathname ++ u.search ++ u.hash else ['/']
      | _, _ => ['/']

/-- `validateReturnTo` on `String` values. -/
def validateReturnToS (returnTo baseUrl : String) : String :=
  (validateReturnTo returnTo.toList baseUrl.toList).asString

/-! ## OIDC session model (src/lib/session.js, auth module)

The session object of express-session is embedded as `SessionState`;
the token claims and token set returned by the openid-client library
are free inputs of the callback (`ExchangeOutcome`), since the library
is external to the repository. -/

/-- The `groups` field of ID-token claims: absent, a JSON array, or a
present non-array value (which `Array.isArray` rejects). -/
inductive GroupsField where
  | absent
  | array (gs : List String)
  | nonArray
deriving DecidableEq

/-- ID-token claims used by the auth module. `claimNamesGroups` models
the presence of a truthy `_claim_names.groups` overage indicator. -/
structure Claims where
  sub : String
  email : Option String
  preferred_username : Option String
  upn : Option String
  name : Option String
  nonce : Option String
  groups : GroupsField
  claimNamesGroups : Bool
deriving DecidableEq

/-- Token set returned by the code exchange. -/
structure TokenSet where
  idToken : String
  claims : Claims
deriving DecidableEq

/-- Outcome of `client.callback(...)`: a token set, or a rejection
(provider error, network failure, library-side validation failure). -/
inductive ExchangeOutcome where
  | ok (ts : TokenSet)
  | failed
deriving DecidableEq

/-- The `oidcTransaction` sub-record stored on the session by
`buildAuthorizationUrl`. `createdAt` is a millisecond timestamp. -/
structure OidcTransaction where
  state : String
  nonce : String
  codeVerifier : String
  returnTo : String
  createdAt : Int
deriving DecidableEq

/-- The `user` sub-record stored on the session after a successful
callback. -/
structure UserRec where
  sub : String
  email : Option String
  name : Option String
  authorized : Bool
  idToken : String
deriving DecidableEq

/-- An express-session record: its identifier and the two optional
sub-records. -/
structure SessionState where
  sid : Nat
  user : Option UserRec
  oidcTransaction : Option OidcTransaction
deriving DecidableEq

/-- Query parameters of the callback request that the auth module
reads. -/
structure CallbackQuery where
  error : Option String
  state : Option String
deriving DecidableEq

/-- The errors `handleCallback` can throw. -/
inductive CallbackError where
  | noTransaction
  | transactionExpired
  | stateMismatch
  | exchangeFailed
  | nonceMismatch
deriving DecidableEq

/-- The value returned by a successful `handleCallback`. -/
structure CallbackSuccess where
  tokenSet : TokenSet
  claims : Claims
  returnTo : String
deriving DecidableEq

/-- `TRANSACTION_TTL`: 5 minutes in milliseconds. -/
def TRANSACTION_TTL : Int := 5 * 60 * 1000

/-- `delete session.oidcTransaction`. -/
def clearTransaction (s : SessionState) : SessionState :=
  { s with oidcTransaction := none }

/-- Embedding of `handleCallback(session, query)` (auth module lines
288-332).  `now` is `Date.now()` and `exchange` the outcome of the
`client.callback` code exchange.  Returns the thrown error or the
success value, together with the session as the call leaves it; a
thrown error leaves the session exactly as it was at the throw site. -/
def handleCallback (sess : SessionState) (query : CallbackQuery) (now : Int)
    (exchange : ExchangeOutcome) :
    Except CallbackError CallbackSuccess × SessionState :=
  match sess.oidcTransaction with
  | none => (Except.error CallbackError.noTransaction, sess)
  | some tx =>
    if now - tx.createdAt > TRANSACTION_TTL then
      (Except.error CallbackError.transactionExpired, clearTransaction sess)
    else if query.state ≠ some tx.state then
      (Except.error CallbackError.stateMismatch, clearTransaction sess)
    else
      match exchange with
      | ExchangeOutcome.failed => (Except.error CallbackError.exchangeFailed, sess)
      | ExchangeOutcome.ok ts =>
        if ts.claims.nonce ≠ some tx.nonce then
          (Except.error CallbackError.nonceMismatch, sess)
        else
          (Except.ok { tokenSet := ts, claims := ts.claims, returnTo := tx.returnTo },
           clearTransaction sess)

/-- The errors `checkGroupMembership` can throw. -/
inductive AuthzError where
  | groupOverage
  | groupClaimMissing
deriving DecidableEq

/-- Embedding of `checkGroupMembership(claims, tokenSet)` (auth module
lines 341-378).  An empty `allowedGroupId` is the falsy unconfigured
case and allows everyone; a groups array decides membership; otherwise
a truthy `_claim_names.groups` means overage, else the claim is
missing. -/
def checkGroupMembership (claims : Claims) (allowedGroupId : String) :
    Except AuthzError Bool :=
  if allowedGroupId = "" then Except.ok true
  else
    match claims.groups with
    | GroupsField.array gs => Except.ok (gs.contains allowedGroupId)
    | _ =>
      if claims.claimNamesGroups then Except.error AuthzError.groupOverage
      else Except.error AuthzError.groupClaimMissing

/-- JavaScript `a || b` on possibly-absent strings: an empty string is
falsy. -/
def jsOrS (a b : Option String) : Option String :=
  match a with
  | some s => if s = "" then b else some s
  | none => b

/-- The user object built at lines 484-490 and again at 499-505 of the
auth module: `claims.email || claims.preferred_username || claims.upn`
as email, plus name, the group decision and the raw ID token. -/
def mkUser (claims : Claims) (ts : TokenSet) (authorized : Bool) : UserRec :=
  { sub := claims.sub
    email := jsOrS claims.email (jsOrS claims.preferred_username claims.upn)
    name := claims.name
    authorized := authorized
    idToken := ts.idToken }

/-- What the callback route sends back: a redirect or the rendered
error page. -/
inductive RouteOutcome where
  | redirect (location : String)
  | errorPage
deriving DecidableEq

/-- `req.session.regenerate`: the session is replaced by a fresh empty
session with a newly generated identifier. -/
def regenerateSession (_s : SessionState) (freshSid : Nat) : SessionState :=
  { sid := freshSid, user := none, oidcTransaction := none }

/-- Embedding of the `/auth/callback` route handler (auth module lines
470-524): an `error` query short-circuits to the error page; then
`handleCallback`, `checkGroupMembership`, storing the user, session
regeneration (with `freshSid` the identifier generated by the store),
re-storing the user, and the redirect to the re-validated `returnTo`.
Any thrown error renders the error page, leaving the session as the
throwing step left it. -/
def callbackRoute (sess : SessionState) (query : CallbackQuery) (now : Int)
    (exchange : ExchangeOutcome) (allowedGroupId : String) (baseUrl : String)
    (freshSid : Nat) : RouteOutcome × SessionState :=
  if query.error ≠ none then (RouteOutcome.errorPage, sess)
  else
    match handleCallback sess query now exchange with
    | (Except.error _, s1) => (RouteOutcome.errorPage, s1)
    | (Except.ok res, s1) =>
      match checkGroupMembership res.claims allowedGroupId with
      | Except.error _ => (RouteOutcome.errorPage, s1)
      | Except.ok authorized =>
        let s2 := { s1 with user := some (mkUser res.claims res.tokenSet authorized) }
        let s3 := { regenerateSession s2 freshSid with
                    user := some (mkUser res.claims res.tokenSet authorized) }
        (RouteOutcome.redirect (validateReturnToS res.returnTo baseUrl), s3)

/-! ## Proxy endpoint model (src/server.js)

`authenticateProxy` and the `/proxy/webhook` handler are embedded with
the upstream `fetch` outcome as a free input.  `JSON.stringify`,
base64 and HMAC JWTs are platform/library functions and are modelled
explicitly below. -/

/-- JSON values, for request bodies and `res.json` responses. -/
inductive Json where
  | null
  | bool (b : Bool)
  | num (n : Int)
  | str (s : String)
  | arr (elems : List Json)
  | obj (fields : List (String × Json))

/-- Escape a character for a JSON string literal (quote and backslash;
the bodies in play contain no control characters). -/
def escJsonChar (c : Char) : List Char :=
  if c == '"' then ['\\', '"'] else if c == '\\' then ['\\', '\\'] else [c]

/-- Escape a string for a JSON string literal. -/
def escJsonStr (s : String) : List Char :=
  (s.toList.map escJsonChar).flatten

mutual

/-- Model of `JSON.stringify` (compact form, as `res.json` and
`JSON.stringify` emit: no added whitespace). -/
def jsonToChars : Json → List Char
  | Json.null => "null".toList
  | Json.bool true => "true".toList
  | Json.bool false => "false".toList
  | Json.num n => (toString n).toList
  | Json.str s => '"' :: (escJsonStr s ++ ['"'])
  | Json.arr xs => '[' :: (jsonArrChars xs ++ [']'])
  | Json.obj fs => Char.ofNat 123 :: (jsonObjChars fs ++ [Char.ofNat 125])

/-- Comma-separated serialisation of array elements. -/
def jsonArrChars : List Json → List Char
  | [] => []
  | [x] => jsonToChars x
  | x :: y :: rest => jsonToChars x ++ ',' :: jsonArrChars (y :: rest)

/-- Comma-separated serialisation of object fields. -/
def jsonObjChars : List (String × Json) → List Char
  | [] => []
  | [(k, v)] => '"' :: (escJsonStr k ++ '"' :: ':' :: jsonToChars v)
  | (k, v) :: f :: rest =>
    '"' :: (escJsonStr k ++ '"' :: ':' :: jsonToChars v) ++ ',' :: jsonObjChars (f :: rest)

end

/-- `JSON.stringify` as a `String`. -/
def Json.stringify (j : Json) : String := (jsonToChars j).asString

/-- JavaScript truthiness of a JSON value. -/
def jsonTruthy : Json → Bool
  | Json.null => false
  | Json.bool b => b
  | Json.num n => n != 0
  | Json.str s => s != ""
  | _ => true

/-- `req.body || {}`: a missing or falsy body is replaced by the empty
object. -/
def jsOrJson (b : Option Json) : Json :=
  match b with
  | some j => if jsonTruthy j then j else Json.obj []
  | none => Json.obj []

/-- JavaScript `a || d` for an optional string against a default. -/
def jsOrD (a : Option String) (d : String) : String :=
  match a with
  | some s => if s = "" then d else s
  | none => d

/-- Model of a signed legacy JWT (`jsonwebtoken`): the payload subject
and the secret it was signed with.  `jwt.verify(t, secret)` succeeds
exactly when the signing secret matches. -/
structure Jwt where
  sub : String
  secret : String
deriving DecidableEq

/-- Model of `jwt.verify(token, secret)` succeeding. -/
def jwtVerify (t : Jwt) (secret : String) : Bool :=
  t.secret == secret

/-- The configuration the proxy endpoint reads (src/lib/config.js):
unset string values are the empty string, which is falsy. -/
structure ProxyConfig where
  legacyEnabled : Bool
  jwtSecret : String
  webhookUrl : String
  webhookUrlTest : String
  n8nUsername : String
  n8nPassword : String
deriving DecidableEq

/-- A request to `/proxy/webhook[-test]` as the handler reads it:
the session user (if a session with a user exists), the legacy
`session` cookie, the method, the content type and the parsed JSON
body. -/
structure ProxyReq where
  sessionUser : Option UserRec
  cookieSession : Option Jwt
  method : String
  contentType : Option String
  body : Option Json

/-- Embedding of `authenticateProxy` (src/server.js lines 115-136):
admit an authorized OIDC session user, else — when legacy password
login is enabled — a `session` cookie holding a JWT that verifies
against the legacy secret. -/
def authenticateProxy (cfg : ProxyConfig) (req : ProxyReq) : Bool :=
  (match req.sessionUser with
   | some u => u.authorized
   | none => false)
  ||
  (cfg.legacyEnabled &&
   (match req.cookieSession with
    | some t => jwtVerify t cfg.jwtSecret
    | none => false))

/-- The base64 alphabet. -/
def base64Table : List Char :=
  "ABCDEFGHIJKLMNOPQRSTUVWXYZabcdefghijklmnopqrstuvwxyz0123456789+/".toList

/-- The base64 digit for a 6-bit value. -/
def b64char (n : Nat) : Char := base64Table.getD n 'A'

/-- Standard base64 of a byte list, with padding. -/
def base64Encode : List Nat → List Char
  | [] => []
  | [a] => [b64char (a / 4 % 64), b64char (a % 4 * 16), '=', '=']
  | [a, b] => [b64char (a / 4 % 64), b64char (a % 4 * 16 + b / 16), b64char (b % 16 * 4), '=']
  | a :: b :: c :: rest =>
    [b64char (a / 4 % 64), b64char (a % 4 * 16 + b / 16),
     b64char (b % 16 * 4 + c / 64), b64char (c % 64)]
    ++ base64Encode rest

/-- Byte view of a string as `Buffer.from` produces it; codepoints are
UTF-8 bytes, which coincide with codepoints for the ASCII credentials
in play. -/
def strBytes (s : String) : List Nat := s.toList.map Char.toNat

/-- The `Authorization: Basic` header value built at line 144 of
src/server.js: base64 of `username:password`. -/
def basicAuthHeader (user pass : String) : String :=
  "Basic " ++ (base64Encode (strBytes (user ++ ":" ++ pass))).asString

/-- The request the proxy sends upstream via `fetch`. -/
structure UpstreamRequest where
  url : String
  method : String
  contentType : String
  authorization : String
  body : Option String
deriving DecidableEq

/-- Embedding of the upstream request construction (src/server.js
lines 144-157): Basic credentials, the caller's content type or a
JSON default, no body for GET/HEAD and the JSON-serialised body
otherwise. -/
def buildUpstreamRequest (cfg : ProxyConfig) (req : ProxyReq) (target : String) :
    UpstreamRequest :=
  { url := target
    method := req.method
    contentType := jsOrD req.contentType "application/json"
    authorization := basicAuthHeader cfg.n8nUsername cfg.n8nPassword
    body := if req.method == "GET" || req.method == "HEAD" then none
            else some (Json.stringify (jsOrJson req.body)) }

/-- An HTTP response: status, headers in order, body text. -/
structure HttpResponse where
  status : Nat
  headers : List (String × String)
  body : String
deriving DecidableEq

/-- Is this response header dropped when relaying (compared
lower-cased, src/server.js lines 161-165)? -/
def excludedRespHeader (k : String) : Bool :=
  let lk := (k.toList.map asciiLower).asString
  lk == "transfer-encoding" || lk == "content-encoding" || lk == "connection"

/-- Copy the upstream status, the non-excluded headers and the body
text to the caller. -/
def forwardResponse (u : HttpResponse) : HttpResponse :=
  { status := u.status
    headers := u.headers.filter (fun kv => !excludedRespHeader kv.1)
    body := u.body }

/-- The `401 {"error":"Not authenticated"}` body. -/
def notAuthenticatedBody : String :=
  Json.stringify (Json.obj [("error", Json.str "Not authenticated")])

/-- Embedding of the `/proxy/webhook` handler with its
`authenticateProxy` guard (src/server.js lines 115-171).  `upstream`
is the outcome of the `fetch` to the configured webhook URL; the
result pairs the upstream request actually issued (if any) with the
response sent to the caller. -/
def proxyWebhook (cfg : ProxyConfig) (req : ProxyReq)
    (upstream : Except Unit HttpResponse) :
    Option UpstreamRequest × HttpResponse :=
  if !authenticateProxy cfg req then
    (none, { status := 401, headers := [], body := notAuthenticatedBody })
  else if cfg.webhookUrl == "" then
    (none, { status := 500, headers := [],
             body := Json.stringify (Json.obj [("error", Json.str "N8N webhook URL not configured")]) })
  else
    let upstreamReq := buildUpstreamRequest cfg req cfg.webhookUrl
    match upstream with
    | Except.error _ =>
      (some upstreamReq,
       { status := 500, headers := [],
         body := Json.stringify (Json.obj [("error", Json.str "Proxy error")]) })
    | Except.ok u => (some upstreamReq, forwardResponse u)

/-! ## Sanity checks evaluating the `validateReturnTo` model -/

example : validateReturnTo "/chat.html".toList "https://example.com".toList
    = "/chat.html".toList := by decide
example : validateReturnTo "//evil.com".toList "https://example.com".toList
    = "/".toList := by decide
example : validateReturnTo "/a//b".toList "https://example.com".toList
    = "/a/b".toList := by decide
example : validateReturnTo "/a/../b".toList "https://example.com".toList
    = "/".toList := by decide
example : validateReturnTo "https://example.com/x?y=1#z".toList
    "https://example.com".toList = "/x?y=1#z".toList := by decide
example : validateReturnTo "https://evil.com/x".toList
    "https://example.com".toList = "/".toList := by decide
example : validateReturnTo "https://example.com/a/../b".toList
    "https://example.com".toList = "/b".toList := by decide
example : validateReturnTo "  /ok  ".toList "https://example.com".toList
    = "/ok".toList := by decide

/-! ## Helper lemmas on the string model -/

theorem isJsSpace_cases (c : Char) (h : isJsSpace c = true) :
    c = ' ' ∨ c = '\t' ∨ c = '\n' ∨ c = '\r' ∨ c = '\x0b' ∨ c = '\x0c' := by
  simp [isJsSpace] at h
  tauto

theorem beq_dot_false_of_isJsSpace (c : Char) (h : isJsSpace c = true) :
    (c == '.') = false := by
  rcases isJsSpace_cases c h with h1 | h1 | h1 | h1 | h1 | h1 <;> subst h1 <;> decide

theorem containsDotDot_dropWhile (s : List Char) :
    containsDotDot (s.dropWhile isJsSpace) = containsDotDot s := by
  induction s with
  | nil => rfl
  | cons c r ih =>
    by_cases h : isJsSpace c = true
    · rw [List.dropWhile_cons]
      simp only [h, if_true, ih]
      simp [containsDotDot, beq_dot_false_of_isJsSpace c h]
    · rw [List.dropWhile_cons]
      simp [Bool.not_eq_true] at h
      simp [h]

theorem trimRight_cons_of_not_space (c : Char) (r : List Char)
    (h : isJsSpace c = false) : trimRight (c :: r) = c :: trimRight r := by
  rw [trimRight]
  cases htr : trimRight r with
  | nil => simp [h]
  | cons a t => simp

theorem containsDotDot_nil_false : containsDotDot [] = false := rfl

theorem containsDotDot_trimRight (s : List Char) (h : containsDotDot s = true) :
    containsDotDot (trimRight s) = true := by
  induction s with
  | nil => exact absurd h (by decide)
  | cons c r ih =>
    rw [containsDotDot] at h
    simp only [Bool.or_eq_true, Bool.and_eq_true] at h
    rcases h with ⟨hc', hr⟩ | h2
    · have hc : c = '.' := by simpa using hc'
      cases r with
      | nil => simp [headIsDot] at hr
      | cons d r2 =>
        have hd : d = '.' := by simpa [headIsDot] using hr
        subst hc; subst hd
        rw [trimRight_cons_of_not_space _ _ (by decide),
            trimRight_cons_of_not_space _ _ (by decide)]
        simp [containsDotDot, headIsDot]
    · have htr := ih h2
      have hne : trimRight r ≠ [] := by
        intro he; rw [he] at htr; exact absurd htr (by decide)
      have hstep : trimRight (c :: r) = c :: trimRight r := by
        rw [trimRight]
        cases he : trimRight r with
        | nil => exact absurd he hne
        | cons a t => simp
      rw [hstep, containsDotDot, htr]
      simp

theorem containsDotDot_jsTrim (s : List Char) (h : containsDotDot s = true) :
    containsDotDot (jsTrim s) = true := by
  rw [jsTrim]
  exact containsDotDot_trimRight _ (by rw [containsDotDot_dropWhile]; exact h)

theorem containsDotDot_collapseSlashes (s : List Char) (h : containsDotDot s = true) :
    containsDotDot (collapseSlashes s) = true := by
  induction s with
  | nil => exact absurd h (by decide)
  | cons c r ih =>
    rw [containsDotDot] at h
    rw [collapseSlashes]
    simp only [Bool.or_eq_true, Bool.and_eq_true] at h
    rcases h with ⟨hc', hr⟩ | h2
    · have hc : c = '.' := by simpa using hc'
      cases r with
      | nil => simp [headIsDot] at hr
      | cons d r2 =>
        have hd : d = '.' := by simpa [headIsDot] using hr
        subst hc; subst hd
        rw [collapseSlashes]
        simp [containsDotDot, headIsDot]
    · have hcr := ih h2
      split
      · exact hcr
      · rw [containsDotDot, hcr]; simp

theorem startsWithSlashSlash_jsTrim (s : List Char)
    (h : startsWithSlashSlash s = true) :
    startsWithSlashSlash (jsTrim s) = true := by
  cases s with
  | nil => exact absurd h (by decide)
  | cons c r =>
    rw [startsWithSlashSlash] at h
    simp only [Bool.and_eq_true] at h
    obtain ⟨hc', hr⟩ := h
    have hc : c = '/' := by simpa using hc'
    cases r with
    | nil => simp [headIsSlash] at hr
    | cons d r2 =>
      have hd : d = '/' := by simpa [headIsSlash] using hr
      subst hc; subst hd
      rw [jsTrim, List.dropWhile_cons]
      simp only [show isJsSpace '/' = false from by decide, Bool.false_eq_true, if_false]
      rw [trimRight_cons_of_not_space _ _ (by decide),
          trimRight_cons_of_not_space _ _ (by decide)]
      simp [startsWithSlashSlash, headIsSlash]

theorem parseScheme_cons_slash (r : List Char) : parseScheme ('/' :: r) = none := by
  have h7 : (('/' :: r).take 7).map asciiLower = '/' :: (r.take 6).map asciiLower := by
    show (('/' :: r).take (6 + 1)).map asciiLower = _
    rw [List.take_succ_cons, List.map_cons, show asciiLower '/' = '/' from by decide]
  have h8 : (('/' :: r).take 8).map asciiLower = '/' :: (r.take 7).map asciiLower := by
    show (('/' :: r).take (7 + 1)).map asciiLower = _
    rw [List.take_succ_cons, List.map_cons, show asciiLower '/' = '/' from by decide]
  have hA : ¬(('/' :: (r.take 6).map asciiLower) = "http://".toList) := by
    intro h; injection h with h1 _; exact absurd h1 (by decide)
  have hB : ¬(('/' :: (r.take 7).map asciiLower) = "https://".toList) := by
    intro h; injection h with h1 _; exact absurd h1 (by decide)
  rw [parseScheme, h7, h8, if_neg hA, if_neg hB]

theorem parseUrl_cons_slash (r : List Char) : parseUrl ('/' :: r) = none := by
  rw [parseUrl, parseScheme_cons_slash]

theorem startsWithSlash_false_of_parseUrl (t : List Char) (u : ParsedUrl)
    (h : parseUrl t = some u) : startsWithSlash t = false := by
  cases t with
  | nil => rfl
  | cons c r =>
    by_cases hc : c = '/'
    · subst hc; rw [parseUrl_cons_slash] at h; exact Option.noConfusion h
    · simp [startsWithSlash, headIsSlash, hc]

/-! ## Claims C1 and C2: the return-path validator -/

/-- Claim C1 (as stated) is false on the code: an absolute URL with
the base origin whose query contains `..` is returned as
`pathname + search + hash`, not `/`.  Here
`validateReturnTo("https://example.com/p?q=..", "https://example.com")`
returns `/p?q=..`. -/
theorem claim_C1_counterexample :
    containsDotDot "https://example.com/p?q=..".toList = true ∧
    validateReturnTo "https://example.com/p?q=..".toList "https://example.com".toList
      = "/p?q=..".toList ∧
    validateReturnTo "https://example.com/p?q=..".toList "https://example.com".toList
      ≠ "/".toList := by
  refine ⟨by decide, by decide, by decide⟩

/-- Claim C1, amended: for every input string that contains `..` or
starts with `//`, and that does not (after trimming) parse as an
absolute URL whose origin equals the configured base URL's origin,
`validateReturnTo` returns `/`. -/
theorem claim_C1_amended (returnTo baseUrl : List Char)
    (hbad : containsDotDot returnTo = true ∨ startsWithSlashSlash returnTo = true)
    (hnoorigin : ∀ u b, parseUrl (jsTrim returnTo) = some u →
      parseUrl baseUrl = some b → u.origin ≠ b.origin) :
    validateReturnTo returnTo baseUrl = ['/'] := by
  by_cases hnil : returnTo = []
  · subst hnil
    rcases hbad with h | h <;> exact absurd h (by decide)
  · have hcond : (startsWithSlash (jsTrim returnTo) &&
        !startsWithSlashSlash (jsTrim returnTo) &&
        !containsDotDot (collapseSlashes (jsTrim returnTo)) &&
        !(collapseSlashes (jsTrim returnTo)).contains '\\') = false := by
      rcases hbad with hdd | hss
      · have h1 : containsDotDot (collapseSlashes (jsTrim returnTo)) = true :=
          containsDotDot_collapseSlashes _ (containsDotDot_jsTrim _ hdd)
        simp [h1]
      · have h2 : startsWithSlashSlash (jsTrim returnTo) = true :=
          startsWithSlashSlash_jsTrim _ hss
        simp [h2]
    rw [validateReturnTo, if_neg hnil]
    simp only [hcond, Bool.false_eq_true, if_false]
    cases hu : parseUrl (jsTrim returnTo) with
    | none => rfl
    | some u =>
      cases hb : parseUrl baseUrl with
      | none => rfl
      | some b =>
        have hne := hnoorigin u b hu hb
        simp [hne]

/-- Claim C1 amended, witnessed at `returnTo = "/a/../b"`. -/
theorem claim_C1_witness :
    validateReturnTo "/a/../b".toList "https://example.com".toList = ['/'] :=
  claim_C1_amended _ _ (Or.inl (by decide))
    (fun u b hu _ => by
      rw [show parseUrl (jsTrim "/a/../b".toList) = none from by decide] at hu
      exact Option.noConfusion hu)

/-- Claim C2: for every input whose trimmed form parses as an absolute
URL with the base URL's origin, `validateReturnTo` returns exactly
that URL's path, query and fragment concatenated. -/
theorem claim_C2 (returnTo baseUrl : List Char) (u b : ParsedUrl)
    (hu : parseUrl (jsTrim returnTo) = some u)
    (hb : parseUrl baseUrl = some b)
    (horigin : u.origin = b.origin) :
    validateReturnTo returnTo baseUrl = u.pathname ++ u.search ++ u.hash := by
  have hnil : returnTo ≠ [] := by
    intro h; subst h
    rw [show jsTrim ([] : List Char) = [] from rfl,
        show parseUrl ([] : List Char) = none from by decide] at hu
    exact Option.noConfusion hu
  have hsw : startsWithSlash (jsTrim returnTo) = false :=
    startsWithSlash_false_of_parseUrl _ u hu
  rw [validateReturnTo, if_neg hnil]
  simp only [hsw, Bool.false_and, Bool.false_eq_true, if_false]
  rw [hu, hb]
  simp [horigin]

/-- Claim C2, witnessed at `https://example.com/x?y=1#z`. -/
theorem claim_C2_witness :
    validateReturnTo "https://example.com/x?y=1#z".toList "https://example.com".toList
      = "/x?y=1#z".toList := by
  exact (claim_C2 _ _
    { scheme := "https".toList, host := "example.com".toList,
      pathname := "/x".toList, search := "?y=1".toList, hash := "#z".toList }
    { scheme := "https".toList, host := "example.com".toList,
      pathname := "/".toList, search := [], hash := [] }
    (by decide) (by decide) (by decide)).trans (by decide)

/-! ## Claims C3, C4, C5: the callback transaction lifecycle -/

/-- Claim C3 (as stated) is false on the code: when the code exchange
fails, `handleCallback` throws before reaching
`delete session.oidcTransaction`, so the transaction is still on the
session afterwards.  Concretely: a fresh transaction, matching state,
failing exchange. -/
theorem claim_C3_counterexample :
    (handleCallback
        { sid := 1, user := none,
          oidcTransaction := some { state := "st", nonce := "no", codeVerifier := "cv",
                                    returnTo := "/chat.html", createdAt := 0 } }
        { error := none, state := some "st" } 1000 ExchangeOutcome.failed).1
      = Except.error CallbackError.exchangeFailed ∧
    (handleCallback
        { sid := 1, user := none,
          oidcTransaction := some { state := "st", nonce := "no", codeVerifier := "cv",
                                    returnTo := "/chat.html", createdAt := 0 } }
        { error := none, state := some "st" } 1000 ExchangeOutcome.failed).2.oidcTransaction
      ≠ none := by
  refine ⟨rfl, by decide⟩

/-- Claim C3, amended: after `handleCallback`, the transaction is
absent when the call succeeds or fails with no-transaction, expiry or
state mismatch; when the call fails with code-exchange failure or
nonce mismatch, the session's transaction is left untouched. -/
theorem claim_C3_amended (sess : SessionState) (query : CallbackQuery) (now : Int)
    (exchange : ExchangeOutcome) :
    (((∃ r, (handleCallback sess query now exchange).1 = Except.ok r) ∨
      (handleCallback sess query now exchange).1 = Except.error CallbackError.noTransaction ∨
      (handleCallback sess query now exchange).1 = Except.error CallbackError.transactionExpired ∨
      (handleCallback sess query now exchange).1 = Except.error CallbackError.stateMismatch) →
      (handleCallback sess query now exchange).2.oidcTransaction = none) ∧
    (((handleCallback sess query now exchange).1 = Except.error CallbackError.exchangeFailed ∨
      (handleCallback sess query now exchange).1 = Except.error CallbackError.nonceMismatch) →
      (handleCallback sess query now exchange).2.oidcTransaction = sess.oidcTransaction) := by
  cases htx : sess.oidcTransaction with
  | none =>
    constructor
    · intro _; simp [handleCallback, htx]
    · intro h
      simp [handleCallback, htx] at h
  | some tx =>
    rw [handleCallback, htx]
    by_cases hexp : now - tx.createdAt > TRANSACTION_TTL
    · simp [hexp, clearTransaction]
    · by_cases hst : query.state ≠ some tx.state
      · simp [hexp, hst, clearTransaction]
      · cases exchange with
        | failed => simp [hexp, hst, htx]
        | ok ts =>
          by_cases hn : ts.claims.nonce ≠ some tx.nonce
          · simp [hexp, hst, hn, htx]
          · simp [hexp, hst, hn, clearTransaction]

/-- Claim C3 amended, witnessed on a successful callback: the
transaction is gone afterwards. -/
theorem claim_C3_witness :
    (handleCallback
        { sid := 1, user := none,
          oidcTransaction := some { state := "st", nonce := "no", codeVerifier := "cv",
                                    returnTo := "/chat.html", createdAt := 0 } }
        { error := none, state := some "st" } 1000
        (ExchangeOutcome.ok
          { idToken := "idt",
            claims := { sub := "s", email := some "e@x", preferred_username := none,
                        upn := none, name := some "N", nonce := some "no",
                        groups := GroupsField.array ["g1"],
                        claimNamesGroups := false } })).2.oidcTransaction = none :=
  (claim_C3_amended _ _ _ _).1
    (Or.inl ⟨{ tokenSet := { idToken := "idt",
                             claims := { sub := "s", email := some "e@x",
                                         preferred_username := none,
                                         upn := none, name := some "N", nonce := some "no",
                                         groups := GroupsField.array ["g1"],
                                         claimNamesGroups := false } },
               claims := { sub := "s", email := some "e@x", preferred_username := none,
                           upn := none, name := some "N", nonce := some "no",
                           groups := GroupsField.array ["g1"],
                           claimNamesGroups := false },
               returnTo := "/chat.html" }, rfl⟩)

/-- Claim C4: a transaction strictly older than 5 minutes at callback
time fails with the expiry error, and the transaction is deleted. -/
theorem claim_C4 (sess : SessionState) (tx : OidcTransaction) (query : CallbackQuery)
    (now : Int) (exchange : ExchangeOutcome)
    (htx : sess.oidcTransaction = some tx)
    (hexp : now - tx.createdAt > TRANSACTION_TTL) :
    (handleCallback sess query now exchange).1
      = Except.error CallbackError.transactionExpired ∧
    (handleCallback sess query now exchange).2.oidcTransaction = none := by
  rw [handleCallback, htx]
  simp [hexp, clearTransaction]

/-- Claim C4, witnessed at `now - createdAt = 5 minutes + 1 ms`. -/
theorem claim_C4_witness :
    (handleCallback
        { sid := 1, user := none,
          oidcTransaction := some { state := "st", nonce := "no", codeVerifier := "cv",
                                    returnTo := "/", createdAt := 0 } }
        { error := none, state := some "st" } 300001 ExchangeOutcome.failed).1
      = Except.error CallbackError.transactionExpired :=
  (claim_C4 _ _ _ _ _ rfl (by decide)).1

/-- Claim C5 (as stated) is false on the code: when the stored
transaction is also expired, a mismatched `state` fails with the
expiry error, not the state-mismatch error (the expiry check runs
first). -/
theorem claim_C5_counterexample :
    (some "other" : Option String) ≠ some "st" ∧
    (handleCallback
        { sid := 1, user := none,
          oidcTransaction := some { state := "st", nonce := "no", codeVerifier := "cv",
                                    returnTo := "/", createdAt := 0 } }
        { error := none, state := some "other" } 600000 ExchangeOutcome.failed).1
      = Except.error CallbackError.transactionExpired ∧
    (Except.error CallbackError.transactionExpired :
        Except CallbackError CallbackSuccess)
      ≠ Except.error CallbackError.stateMismatch := by
  refine ⟨by decide, rfl, ?_⟩
  intro h
  injection h with h1
  exact absurd h1 (by decide)

/-- Claim C5, amended: on an unexpired transaction, a callback whose
`state` differs from the stored state fails with the state-mismatch
error and the transaction is deleted. -/
theorem claim_C5_amended (sess : SessionState) (tx : OidcTransaction)
    (query : CallbackQuery) (now : Int) (exchange : ExchangeOutcome)
    (htx : sess.oidcTransaction = some tx)
    (hfresh : ¬ now - tx.createdAt > TRANSACTION_TTL)
    (hstate : query.state ≠ some tx.state) :
    (handleCallback sess query now exchange).1
      = Except.error CallbackError.stateMismatch ∧
    (handleCallback sess query now exchange).2.oidcTransaction = none := by
  rw [handleCallback, htx]
  simp [hfresh, hstate, clearTransaction]

/-- Claim C5 amended, witnessed on a fresh transaction with a wrong
`state`. -/
theorem claim_C5_witness :
    (handleCallback
        { sid := 1, user := none,
          oidcTransaction := some { state := "st", nonce := "no", codeVerifier := "cv",
                                    returnTo := "/", createdAt := 0 } }
        { error := none, state := some "other" } 1000 ExchangeOutcome.failed).1
      = Except.error CallbackError.stateMismatch :=
  (claim_C5_amended _ _ _ _ _ rfl (by decide) (by decide)).1

/-! ## Claim C6: session regeneration on successful callback -/

/-- Claim C6: on the success path of the callback route — no provider
error, live transaction, matching state and nonce, group check
returning a decision — and with the store generating a fresh session
identifier, the final session's identifier differs from the pre-login
one, its `user` record is exactly the one computed from the validated
claims before regeneration, and the response redirects to the
re-validated stored return path. -/
theorem claim_C6 (sess : SessionState) (tx : OidcTransaction) (query : CallbackQuery)
    (now : Int) (ts : TokenSet) (authorized : Bool)
    (allowedGroupId baseUrl : String) (freshSid : Nat)
    (htx : sess.oidcTransaction = some tx)
    (hnoerr : query.error = none)
    (hfresh : ¬ now - tx.createdAt > TRANSACTION_TTL)
    (hstate : query.state = some tx.state)
    (hnonce : ts.claims.nonce = some tx.nonce)
    (hgroup : checkGroupMembership ts.claims allowedGroupId = Except.ok authorized)
    (hsid : freshSid ≠ sess.sid) :
    (callbackRoute sess query now (ExchangeOutcome.ok ts) allowedGroupId baseUrl
        freshSid).2.sid ≠ sess.sid ∧
    (callbackRoute sess query now (ExchangeOutcome.ok ts) allowedGroupId baseUrl
        freshSid).2.user = some (mkUser ts.claims ts authorized) ∧
    (callbackRoute sess query now (ExchangeOutcome.ok ts) allowedGroupId baseUrl
        freshSid).1 = RouteOutcome.redirect (validateReturnToS tx.returnTo baseUrl) := by
  have hcb : handleCallback sess query now (ExchangeOutcome.ok ts)
      = (Except.ok { tokenSet := ts, claims := ts.claims, returnTo := tx.returnTo },
         clearTransaction sess) := by
    rw [handleCallback, htx]
    simp [hfresh, hstate, hnonce]
  have hroute : callbackRoute sess query now (ExchangeOutcome.ok ts) allowedGroupId
      baseUrl freshSid
      = (RouteOutcome.redirect (validateReturnToS tx.returnTo baseUrl),
         { sid := freshSid, user := some (mkUser ts.claims ts authorized),
           oidcTransaction := none }) := by
    rw [callbackRoute, hcb]
    simp [hnoerr, hgroup, regenerateSession]
  rw [hroute]
  exact ⟨hsid, rfl, rfl⟩

/-- Claim C6, witnessed on a concrete successful callback with
`freshSid = 2` against pre-login `sid = 1`. -/
theorem claim_C6_witness :
    (callbackRoute
        { sid := 1, user := none,
          oidcTransaction := some { state := "st", nonce := "no", codeVerifier := "cv",
                                    returnTo := "/chat.html", createdAt := 0 } }
        { error := none, state := some "st" } 1000
        (ExchangeOutcome.ok
          { idToken := "idt",
            claims := { sub := "s", email := some "e@x", preferred_username := none,
                        upn := none, name := some "N", nonce := some "no",
                        groups := GroupsField.array ["g1"],
                        claimNamesGroups := false } })
        "g1" "https://example.com" 2).2.sid ≠ 1 :=
  (claim_C6 _ { state := "st", nonce := "no", codeVerifier := "cv",
                returnTo := "/chat.html", createdAt := 0 }
      _ 1000
      { idToken := "idt",
        claims := { sub := "s", email := some "e@x", preferred_username := none,
                    upn := none, name := some "N", nonce := some "no",
                    groups := GroupsField.array ["g1"], claimNamesGroups := false } }
      true "g1" "https://example.com" 2
      rfl rfl (by decide) rfl rfl rfl (by decide)).1

/-! ## Claim C7: group membership evaluation -/

/-- Claim C7: with a configured (non-empty) allowed group id,
`checkGroupMembership` returns `true` exactly when the claims carry a
`groups` array containing that id; and when the claims carry neither a
groups array nor the `_claim_names.groups` overage indicator, it fails
with the group-claim-missing error. -/
theorem claim_C7 (claims : Claims) (gid : String) (hgid : gid ≠ "") :
    (checkGroupMembership claims gid = Except.ok true ↔
      ∃ gs, claims.groups = GroupsField.array gs ∧ gid ∈ gs) ∧
    ((∀ gs, claims.groups ≠ GroupsField.array gs) → claims.claimNamesGroups = false →
      checkGroupMembership claims gid = Except.error AuthzError.groupClaimMissing) := by
  rw [checkGroupMembership, if_neg hgid]
  cases hg : claims.groups with
  | array gs =>
    constructor
    · constructor
      · intro h
        injection h with h1
        exact ⟨gs, rfl, by simpa using h1⟩
      · rintro ⟨gs2, hgs2, hmem⟩
        injection hgs2 with h2
        subst h2
        have hc : gs.contains gid = true := by simpa using hmem
        show Except.ok (gs.contains gid) = Except.ok true
        rw [hc]
    · intro hno _
      exact absurd rfl (hno gs)
  | absent =>
    constructor
    · constructor
      · intro h
        by_cases hov : claims.claimNamesGroups <;> simp [hov] at h
      · rintro ⟨gs2, hgs2, _⟩
        exact absurd hgs2 (by simp)
    · intro _ hov
      simp [hov]
  | nonArray =>
    constructor
    · constructor
      · intro h
        by_cases hov : claims.claimNamesGroups <;> simp [hov] at h
      · rintro ⟨gs2, hgs2, _⟩
        exact absurd hgs2 (by simp)
    · intro _ hov
      simp [hov]

/-- Claim C7, witnessed: a claims object whose `groups` array holds
the configured id authorizes. -/
theorem claim_C7_witness :
    checkGroupMembership
      { sub := "s", email := none, preferred_username := none, upn := none,
        name := none, nonce := none, groups := GroupsField.array ["g0", "g1"],
        claimNamesGroups := false } "g1" = Except.ok true :=
  ((claim_C7
      { sub := "s", email := none, preferred_username := none, upn := none,
        name := none, nonce := none, groups := GroupsField.array ["g0", "g1"],
        claimNamesGroups := false } "g1" (by decide)).1).mpr
    ⟨["g0", "g1"], rfl, by simp⟩

/-! ## Claims C8, C9, C10: the proxy endpoint -/

/-- Claim C8: a `/proxy/webhook` request with no authorized session
user and no verifying legacy cookie gets
`401 {"error":"Not authenticated"}`; an authenticated request with an
unconfigured downstream webhook URL gets status 500. -/
theorem claim_C8 (cfg : ProxyConfig) (req : ProxyReq)
    (upstream : Except Unit HttpResponse) :
    ((∀ u, req.sessionUser = some u → u.authorized = false) →
     (∀ t, cfg.legacyEnabled = true → req.cookieSession = some t →
        jwtVerify t cfg.jwtSecret = false) →
     (proxyWebhook cfg req upstream).2
       = { status := 401, headers := [], body := notAuthenticatedBody }) ∧
    notAuthenticatedBody = "\x7b\"error\":\"Not authenticated\"\x7d" ∧
    (authenticateProxy cfg req = true → cfg.webhookUrl = "" →
     (proxyWebhook cfg req upstream).2.status = 500) := by
  refine ⟨?_, by decide, ?_⟩
  · intro h1 h2
    have hauth : authenticateProxy cfg req = false := by
      rw [authenticateProxy]
      cases hsu : req.sessionUser with
      | none =>
        cases hck : req.cookieSession with
        | none => simp
        | some t =>
          cases hleg : cfg.legacyEnabled with
          | false => simp
          | true => simp [h2 t hleg hck]
      | some u =>
        have hu := h1 u hsu
        cases hck : req.cookieSession with
        | none => simp [hu]
        | some t =>
          cases hleg : cfg.legacyEnabled with
          | false => simp [hu]
          | true => simp [hu, h2 t hleg hck]
    rw [proxyWebhook]
    simp [hauth]
  · intro ha hurl
    rw [proxyWebhook]
    simp [ha, hurl]

/-- Claim C8, witnessed: no session, no cookie, legacy disabled. -/
theorem claim_C8_witness :
    (proxyWebhook
        { legacyEnabled := false, jwtSecret := "k", webhookUrl := "https://n8n.example/wh",
          webhookUrlTest := "", n8nUsername := "u", n8nPassword := "p" }
        { sessionUser := none, cookieSession := none, method := "POST",
          contentType := none, body := none }
        (Except.error ())).2
      = { status := 401, headers := [], body := notAuthenticatedBody } :=
  (claim_C8 _ _ _).1 (fun _ h => Option.noConfusion h)
    (fun _ _ h => Option.noConfusion h)

/-- Claim C9: for an authenticated request with a configured webhook
URL, the upstream request carries the Basic header built from the
configured credentials, no body for GET/HEAD and the JSON-serialised
request body otherwise, and the caller's response copies the upstream
status and all upstream headers except transfer-encoding,
content-encoding and connection. -/
theorem claim_C9 (cfg : ProxyConfig) (req : ProxyReq) (u : HttpResponse)
    (hauth : authenticateProxy cfg req = true)
    (hurl : cfg.webhookUrl ≠ "") :
    (proxyWebhook cfg req (Except.ok u)).1
      = some (buildUpstreamRequest cfg req cfg.webhookUrl) ∧
    (buildUpstreamRequest cfg req cfg.webhookUrl).authorization
      = "Basic " ++ (base64Encode (strBytes (cfg.n8nUsername ++ ":" ++ cfg.n8nPassword))).asString ∧
    ((req.method = "GET" ∨ req.method = "HEAD") →
      (buildUpstreamRequest cfg req cfg.webhookUrl).body = none) ∧
    (¬(req.method = "GET" ∨ req.method = "HEAD") →
      (buildUpstreamRequest cfg req cfg.webhookUrl).body
        = some (Json.stringify (jsOrJson req.body))) ∧
    (proxyWebhook cfg req (Except.ok u)).2.status = u.status ∧
    (proxyWebhook cfg req (Except.ok u)).2.headers
      = u.headers.filter (fun kv => !excludedRespHeader kv.1) := by
  have hx : proxyWebhook cfg req (Except.ok u)
      = (some (buildUpstreamRequest cfg req cfg.webhookUrl), forwardResponse u) := by
    rw [proxyWebhook]
    simp [hauth, hurl]
  refine ⟨by rw [hx], rfl, ?_, ?_, by rw [hx]; rfl, by rw [hx]; rfl⟩
  · intro h
    rcases h with h | h <;> simp [buildUpstreamRequest, h]
  · intro h
    rw [not_or] at h
    simp [buildUpstreamRequest, h.1, h.2]

/-- Claim C9, witnessed: a POST with a JSON body relayed to an
upstream whose response carries excluded and kept headers. -/
theorem claim_C9_witness :
    (proxyWebhook
        { legacyEnabled := false, jwtSecret := "k", webhookUrl := "https://n8n.example/wh",
          webhookUrlTest := "", n8nUsername := "u", n8nPassword := "p" }
        { sessionUser := some { sub := "s", email := none, name := none,
                                authorized := true, idToken := "i" },
          cookieSession := none, method := "POST", contentType := none,
          body := some (Json.obj [("message", Json.str "hi")]) }
        (Except.ok { status := 200,
                     headers := [("Content-Type", "text/html"),
                                 ("Transfer-Encoding", "chunked"),
                                 ("X-Request-Id", "1"),
                                 ("Connection", "close")],
                     body := "ok" })).2.headers
      = [("Content-Type", "text/html"), ("X-Request-Id", "1")] :=
  ((claim_C9 _ _ _ (by decide) (by decide)).2.2.2.2.2).trans (by decide)

/-- Claim C10: with legacy password login enabled, a request whose
`session` cookie holds a JWT verifying against the configured legacy
secret passes `authenticateProxy` — for any session state, so no
group-authorization check applies on this path (both `/proxy/webhook`
and `/proxy/webhook-test` guard with this same function). -/
theorem claim_C10 (cfg : ProxyConfig) (req : ProxyReq) (t : Jwt)
    (hleg : cfg.legacyEnabled = true)
    (hcookie : req.cookieSession = some t)
    (hverify : jwtVerify t cfg.jwtSecret = true) :
    authenticateProxy cfg req = true := by
  rw [authenticateProxy, hcookie]
  simp [hleg, hverify]

/-- Claim C10, witnessed: a session user who failed the group check
(`authorized := false`) is still admitted via the legacy cookie. -/
theorem claim_C10_witness :
    authenticateProxy
      { legacyEnabled := true, jwtSecret := "k", webhookUrl := "https://n8n.example/wh",
        webhookUrlTest := "", n8nUsername := "u", n8nPassword := "p" }
      { sessionUser := some { sub := "s", email := none, name := none,
                              authorized := false, idToken := "i" },
        cookieSession := some { sub := "admin", secret := "k" },
        method := "POST", contentType := none, body := none } = true :=
  claim_C10 _ _ { sub := "admin", secret := "k" } rfl rfl rfl
